import Mathlib

/-!
A shallow embedding of the Crop-Monitoring scene-processing pipeline
(src/lambda_function/lambda_function.py) in Lean 4, together with theorems
settling the specification claims.

Modelling conventions:
* Raster grids are flattened row-major lists.  Raw digital numbers read from a
  band file are integers (`Int`); the "no value" sentinel (NaN in the numpy
  source) is `Option`: `none` is a masked pixel.  Floating-point arithmetic is
  embedded as exact rational arithmetic (`Rat`); per the design notes, any
  representation of masked pixels is acceptable provided masked pixels are
  excluded from aggregates, which the `Option` embedding makes explicit.
* The numpy source stores `std` (a square root, hence irrational); the
  embedding stores `var`, the square of the source's `std`, to stay in `Rat`.
  No claim concerns the value of `std`.
* Wall-clock timestamps (`processing_timestamp`, `last_updated`) and the byte
  layout of files are not modelled; they carry no claim.
* External effects (catalog search, HTTP band transfer, clipping I/O, S3
  writes) are modelled by an `Env` of outcome oracles, and the pipeline
  additionally returns the trace of effects it performed, so that claims of
  the form "performs no acquisition before failing" are statable.
-/

namespace CropMonitoring

/-- The four spectral bands the pipeline downloads
(`required_bands = ['red', 'green', 'blue', 'nir']`). -/
inductive Band where
  | red
  | green
  | blue
  | nir
deriving DecidableEq, Repr

/-- `required_bands` from `download_bands_to_tmp`, in source order. -/
def required_bands : List Band := [.red, .green, .blue, .nir]

/-! ## Index Engine (`calculate_vegetation_indices`) -/

/-- Scaling and no-data handling for one pixel of one band:
`red = red_src.read(1).astype('float32') / 10000.0` followed by
`red = np.where((red <= 0) | (red > 1), np.nan, red)`.
A scaled reflectance outside the half-open interval (0, 1] is masked. -/
def scalePixel (v : Int) : Option Rat :=
  let x : Rat := (v : Rat) / 10000
  if x ≤ 0 ∨ 1 < x then none else some x

/-- One pixel of `indices['NDVI'] = np.where((nir + red) > 0, (nir - red) / (nir + red), np.nan)`.
A NaN (masked) operand makes the numpy condition false, so the output is NaN. -/
def ndviPixel (nir red : Option Rat) : Option Rat :=
  match nir, red with
  | some n, some r => if 0 < n + r then some ((n - r) / (n + r)) else none
  | _, _ => none

/-- One pixel of `indices['EVI'] = np.where((nir + 6*red - 7.5*blue + 1) > 0,
2.5 * ((nir - red) / (nir + 6*red - 7.5*blue + 1)), np.nan)`. -/
def eviPixel (nir red blue : Option Rat) : Option Rat :=
  match nir, red, blue with
  | some n, some r, some b =>
      if 0 < n + 6 * r - (15 / 2) * b + 1 then
        some ((5 / 2) * ((n - r) / (n + 6 * r - (15 / 2) * b + 1)))
      else none
  | _, _, _ => none

/-- One pixel of `indices['NDWI'] = np.where((green + nir) > 0,
(green - nir) / (green + nir), np.nan)`. -/
def ndwiPixel (green nir : Option Rat) : Option Rat :=
  match green, nir with
  | some g, some n => if 0 < g + n then some ((g - n) / (g + n)) else none
  | _, _ => none

/-- Elementwise combination of three equally shaped grids. -/
def zipWith3 (f : α → β → γ → δ) : List α → List β → List γ → List δ
  | a :: as, b :: bs, c :: cs => f a b c :: zipWith3 f as bs cs
  | _, _, _ => []

/-- The three index rasters returned by `calculate_vegetation_indices`
(the `indices` dict, keys NDVI, EVI, NDWI in insertion order). -/
structure Indices where
  NDVI : List (Option Rat)
  EVI : List (Option Rat)
  NDWI : List (Option Rat)
deriving DecidableEq, Repr

/-- `calculate_vegetation_indices`: scale the four raw clipped band grids by
1/10000, mask out-of-domain reflectances, and compute the three indices
elementwise.  Arguments are the raw digital-number grids of the clipped
red, nir, green and blue bands. -/
def calculate_vegetation_indices (red nir green blue : List Int) : Indices :=
  let r := red.map scalePixel
  let n := nir.map scalePixel
  let g := green.map scalePixel
  let b := blue.map scalePixel
  { NDVI := List.zipWith ndviPixel n r
    EVI := zipWith3 eviPixel n r b
    NDWI := List.zipWith ndwiPixel g n }

/-! ## Summarizer (`generate_lightweight_outputs`) -/

/-- The per-index statistics dict built in `generate_lightweight_outputs`.
The source stores `std`; the embedding stores `var`, its square, to remain in
exact arithmetic.  `vegetation_pixels` is `int(np.sum(valid_data > 0.3))` for
NDVI and `None` for every other index. -/
structure IndexStats where
  mean : Rat
  var : Rat
  min : Rat
  max : Rat
  count : Nat
  vegetation_pixels : Option Nat
deriving DecidableEq, Repr

/-- `valid_data = index_data[~np.isnan(index_data)]`: the unmasked pixels. -/
def validData (index_data : List (Option Rat)) : List Rat :=
  index_data.filterMap id

/-- Minimum of a grid of valid pixels (`valid_data.min()`); only ever used on
nonempty data, the `[]` case is an arbitrary default. -/
def listMin : List Rat → Rat
  | [] => 0
  | x :: xs => xs.foldl (fun a b => if b < a then b else a) x

/-- Maximum of a grid of valid pixels (`valid_data.max()`). -/
def listMax : List Rat → Rat
  | [] => 0
  | x :: xs => xs.foldl (fun a b => if a < b then b else a) x

/-- The statistics computed from the unmasked pixels of one index
(`if len(valid_data) > 0: stats = ...`); `none` when every pixel is masked,
matching the omission of the key from `results['statistics']`. -/
def statsFromValid (index_name : String) (valid : List Rat) : Option IndexStats :=
  if valid.length > 0 then
    let m := valid.sum / (valid.length : Rat)
    some { mean := m
           var := ((valid.map (fun x => (x - m) ^ 2)).sum) / (valid.length : Rat)
           min := listMin valid
           max := listMax valid
           count := valid.length
           vegetation_pixels :=
             if index_name = "NDVI" then
               some ((valid.filter (fun x => 3 / 10 < x)).length)
             else none }
  else none

/-- Per-index statistics as in `generate_lightweight_outputs`: computed over
the unmasked pixels only. -/
def statsOf (index_name : String) (index_data : List (Option Rat)) : Option IndexStats :=
  statsFromValid index_name (validData index_data)

/-- The `results['statistics']` dict: one optional entry per index;
an index whose pixels are all masked is simply absent. -/
structure Statistics where
  NDVI : Option IndexStats
  EVI : Option IndexStats
  NDWI : Option IndexStats
deriving DecidableEq, Repr

/-- The `results['summary']` dict.  `vegetation_coverage` is kept as the
numeric percentage that the source formats as an `"x.y%"` string;
`data_size` is the constant string the source writes (ASCII-transcribed). -/
structure Summary where
  vegetation_health : String
  vegetation_coverage : Rat
  data_size : String
deriving DecidableEq, Repr

/-- The result record assembled by `generate_lightweight_outputs`. -/
structure Results where
  scene_id : String
  scene_date : String
  statistics : Statistics
  summary : Summary
deriving DecidableEq, Repr

/-- `generate_lightweight_outputs`: per-index statistics over unmasked pixels,
then the summary derived from the NDVI statistics with the source's dict
defaults: `ndvi_stats.get('mean', 0) > 0.3` for the health label and
`ndvi_stats.get('vegetation_pixels', 0) / ndvi_stats.get('count', 1) * 100`
for the coverage percentage. -/
def generate_lightweight_outputs (indices : Indices) (scene_id scene_date : String) :
    Results :=
  let stats : Statistics :=
    { NDVI := statsOf "NDVI" indices.NDVI
      EVI := statsOf "EVI" indices.EVI
      NDWI := statsOf "NDWI" indices.NDWI }
  let ndvi_stats := stats.NDVI
  { scene_id := scene_id
    scene_date := scene_date
    statistics := stats
    summary :=
      { vegetation_health :=
          if 3 / 10 < (ndvi_stats.map IndexStats.mean).getD 0 then "Good" else "Poor"
        vegetation_coverage :=
          (((ndvi_stats.bind IndexStats.vegetation_pixels).getD 0 : Rat) /
            (((ndvi_stats.map IndexStats.count).getD 1 : Nat) : Rat)) * 100
        data_size := "Small AOI (1km2)" } }

/-! ## History Store (`update_time_series_log`, `upload_results_to_s3`) -/

/-- One compact entry of the rolling time-series log
(`time_series['scenes'].append(...)` in `update_time_series_log`). -/
structure LogEntry where
  scene_id : String
  date : String
  ndvi_mean : Rat
  vegetation_health : String
deriving DecidableEq, Repr

/-- The projection of a result record appended to the log:
`ndvi_mean` uses the source's nested dict default
`results['statistics'].get('NDVI', \x7b\x7d).get('mean', 0)`. -/
def logEntryOf (results : Results) : LogEntry :=
  { scene_id := results.scene_id
    date := results.scene_date
    ndvi_mean := ((results.statistics.NDVI).map IndexStats.mean).getD 0
    vegetation_health := results.summary.vegetation_health }

/-- Python's `xs[-20:]`: the last 20 elements (all of them when fewer). -/
def lastTwenty (l : List LogEntry) : List LogEntry :=
  l.drop (l.length - 20)

/-- The log contents written back by `update_time_series_log`.  The read of
the existing log sits under a bare `except:` in the source, so any read
failure whatsoever — missing key, transport error raised by `get_object`, or
`json.loads` failing on a malformed body — falls back to the fresh
`\x7b'scenes': []\x7d`; the new entry is then appended and the list truncated
to its last 20 elements. -/
def update_time_series_log (readResult : Except String (List LogEntry))
    (results : Results) : List LogEntry :=
  let time_series : List LogEntry :=
    match readResult with
    | .ok l => l
    | .error _ => []
  lastTwenty (time_series ++ [logEntryOf results])

/-! ## Pipeline control flow with an effect trace

The outward-facing operations of one invocation.  `Env` packages the outcome
of every external interaction as pure data; the pipeline functions return,
alongside their `Except` result, the ordered list of effects they actually
performed, so that claims about *absent* calls are expressible. -/

/-- One externally visible call made by the pipeline. -/
inductive Effect where
  | searchCall
  | acquireBand (b : Band)
  | clipBand (b : Band)
  | statsWrite
  | logRead
  | logWrite
deriving DecidableEq, Repr

/-- A scene descriptor as used by the pipeline: `item.id`,
`item.properties['datetime'][:10]`, `item.properties.get('eo:cloud_cover', ...)`
and the `item.assets` mapping restricted to the four queried band names
(the only keys the source ever looks up). -/
structure SceneItem where
  id : String
  date : String
  cloud_cover : Option Rat
  assets : Band → Option String

/-- Outcomes of all external interactions of one invocation.  `bands b` is
the digital-number grid that reading the clipped file of band `b` yields;
`logWrite` may depend on the content written. -/
structure Env where
  items : Except String (List SceneItem)
  fetch : Band → Except String Unit
  clip : Band → Except String Unit
  bands : Band → List Int
  statsWrite : Except String Unit
  logRead : Except String (List LogEntry)
  logWrite : List LogEntry → Except String Unit

/-- The scratch file name `temp_path / f'\x7bband_name\x7d.tif'`. -/
def bandFileName (b : Band) : String :=
  match b with
  | .red => "red.tif"
  | .green => "green.tif"
  | .blue => "blue.tif"
  | .nir => "nir.tif"

/-- The loop body of `download_bands_to_tmp`: each required band *present in
the scene's asset map* is streamed into its own scratch file (a transfer
failure or non-2xx status raises and aborts the loop); a required band absent
from `scene_item.assets` is skipped without error. -/
def download_go (scene : SceneItem) (env : Env) :
    List Band → Except String (List (Band × String)) × List Effect
  | [] => (.ok [], [])
  | b :: rest =>
    match scene.assets b with
    | none => download_go scene env rest
    | some _ =>
      match env.fetch b with
      | .error e => (.error e, [.acquireBand b])
      | .ok _ =>
        let (r, t) := download_go scene env rest
        (r.map (fun l => (b, bandFileName b) :: l), .acquireBand b :: t)

/-- `download_bands_to_tmp scene env` iterates `download_go` over
`required_bands` and returns the `downloaded_bands` mapping. -/
def download_bands_to_tmp (scene : SceneItem) (env : Env) :
    Except String (List (Band × String)) × List Effect :=
  download_go scene env required_bands

/-- The scratch file name `temp_path / f'\x7bband_name\x7d_clipped.tif'`. -/
def clippedFileName (b : Band) : String :=
  match b with
  | .red => "red_clipped.tif"
  | .green => "green_clipped.tif"
  | .blue => "blue_clipped.tif"
  | .nir => "nir_clipped.tif"

/-- The loop of `clip_bands_to_aoi`: every *downloaded* band is clipped in
turn; any clipping failure raises and aborts the invocation. -/
def clip_go (env : Env) :
    List (Band × String) → Except String (List (Band × String)) × List Effect
  | [] => (.ok [], [])
  | (b, _) :: rest =>
    match env.clip b with
    | .error e => (.error e, [.clipBand b])
    | .ok _ =>
      let (r, t) := clip_go env rest
      (r.map (fun l => (b, clippedFileName b) :: l), .clipBand b :: t)

/-- Dict lookup `clipped_bands[name]`. -/
def lookupBand (l : List (Band × String)) (b : Band) : Option String :=
  (l.find? (fun p => p.1 = b)).map (fun p => p.2)

/-- The index-computation step: `calculate_vegetation_indices` subscripts
`clipped_bands['red']`, `['nir']`, `['green']`, `['blue']`; a band missing
from the dict raises `KeyError`, which aborts the invocation. -/
def calcStep (env : Env) (clipped : List (Band × String)) : Except String Indices :=
  if (lookupBand clipped .red).isSome ∧ (lookupBand clipped .nir).isSome ∧
      (lookupBand clipped .green).isSome ∧ (lookupBand clipped .blue).isSome then
    .ok (calculate_vegetation_indices (env.bands .red) (env.bands .nir)
      (env.bands .green) (env.bands .blue))
  else .error "KeyError"

/-- `upload_results_to_s3`: write the statistics object (a failure raises),
then run `update_time_series_log` — whose *read* failure is swallowed but
whose *write* failure raises, since the call is not wrapped in any handler —
and finally return the `s3_paths` list, which holds the statistics key only. -/
def upload_results_to_s3 (env : Env) (results : Results) :
    Except String (List String) × List Effect :=
  match env.statsWrite with
  | .error e => (.error e, [.statsWrite])
  | .ok _ =>
    let written := update_time_series_log env.logRead results
    match env.logWrite written with
    | .error e => (.error e, [.statsWrite, .logRead, .logWrite])
    | .ok _ =>
      (.ok ["s3://uae-agri-monitoring/results/statistics/" ++ results.scene_date ++
        "/" ++ results.scene_id ++ "_stats.json"],
        [.statsWrite, .logRead, .logWrite])

/-- The success payload returned by `process_scene_data`. -/
structure ResultPayload where
  scene_id : String
  scene_date : String
  processed_indices : List String
  s3_outputs : List String
  processing_summary : Summary
deriving DecidableEq, Repr

/-- `process_scene_data`: download, clip, compute indices, summarize, upload;
any raised failure propagates. -/
def process_scene_data (scene : SceneItem) (env : Env) :
    Except String ResultPayload × List Effect :=
  let (dl, t1) := download_bands_to_tmp scene env
  match dl with
  | .error e => (.error e, t1)
  | .ok downloaded =>
    let (cl, t2) := clip_go env downloaded
    match cl with
    | .error e => (.error e, t1 ++ t2)
    | .ok clipped =>
      match calcStep env clipped with
      | .error e => (.error e, t1 ++ t2)
      | .ok indices =>
        let results := generate_lightweight_outputs indices scene.id scene.date
        let (up, t3) := upload_results_to_s3 env results
        match up with
        | .error e => (.error e, t1 ++ t2 ++ t3)
        | .ok paths =>
          (.ok { scene_id := scene.id
                 scene_date := scene.date
                 processed_indices := ["NDVI", "EVI", "NDWI"]
                 s3_outputs := paths
                 processing_summary := results.summary }, t1 ++ t2 ++ t3)

/-- Python's `min(items, key=...)`: the first element attaining the minimal
key.  The source key is `lambda x: x.properties.get('eo:cloud_cover', 100)`. -/
def selectBest (x : SceneItem) (xs : List SceneItem) : SceneItem :=
  xs.foldl (fun best y =>
    if y.cloud_cover.getD 100 < best.cloud_cover.getD 100 then y else best) x

/-- `find_and_process_scene`: query the catalog, fail fatally when the
candidate set is empty, otherwise select the scene of minimal cloud cover
and process it. -/
def find_and_process_scene (env : Env) : Except String ResultPayload × List Effect :=
  match env.items with
  | .error e => (.error e, [.searchCall])
  | .ok [] => (.error "No suitable scenes found", [.searchCall])
  | .ok (x :: xs) =>
    let (r, t) := process_scene_data (selectBest x xs) env
    (r, .searchCall :: t)

/-- `process_single_scene` raises `NotImplementedError` unconditionally. -/
def process_single_scene (_scene_id : String) : Except String ResultPayload :=
  .error "Direct scene ID processing not implemented"

/-- The invocation event: `test_mode`, optional `scene_id`
(the date range lives in `Env.items`, the catalog's answer to it). -/
structure Event where
  test_mode : Bool
  scene_id : Option String

/-- The body of the HTTP-style response. -/
inductive Body where
  | test
  | success (r : ResultPayload)
  | failure (msg : String)
deriving DecidableEq, Repr

/-- The response dict of `lambda_handler`. -/
structure Response where
  statusCode : Nat
  body : Body
deriving DecidableEq, Repr

/-- `lambda_handler`: test mode short-circuits; a `scene_id` event routes to
the unimplemented direct path; otherwise the date-range search runs, and the
enclosing `try/except` maps any raised failure to a 500 error payload. -/
def lambda_handler (event : Event) (env : Env) : Response × List Effect :=
  if event.test_mode then ({ statusCode := 200, body := .test }, [])
  else
    match event.scene_id with
    | some sid =>
      match process_single_scene sid with
      | .ok r => ({ statusCode := 200, body := .success r }, [])
      | .error e => ({ statusCode := 500, body := .failure e }, [])
    | none =>
      let (r, t) := find_and_process_scene env
      match r with
      | .ok payload => ({ statusCode := 200, body := .success payload }, t)
      | .error e => ({ statusCode := 500, body := .failure e }, t)

/-! ## Concrete inputs used by witnesses and counterexamples -/

/-- A minimal concrete result record (all-masked indices), used only to
instantiate universally quantified theorems. -/
def blankResults : Results :=
  generate_lightweight_outputs (calculate_vegetation_indices [0] [0] [0] [0]) "scene" "2024-07-15"

/-- A scene descriptor carrying all four required bands. -/
def sceneAllBands : SceneItem :=
  { id := "scene-a", date := "2024-07-15", cloud_cover := some 5,
    assets := fun _ => some "https://example/band.tif" }

/-- A scene descriptor whose asset map lacks the near-infrared band. -/
def sceneMissingNir : SceneItem :=
  { id := "scene-m", date := "2024-07-15", cloud_cover := some 5,
    assets := fun b => if b = .nir then none else some "https://example/band.tif" }

/-- Candidate scene with 5% cloud cover. -/
def sc5 : SceneItem :=
  { id := "scene-5", date := "2024-07-10", cloud_cover := some 5,
    assets := fun _ => some "https://example/band.tif" }

/-- Candidate scene with 12% cloud cover. -/
def sc12 : SceneItem :=
  { id := "scene-12", date := "2024-07-12", cloud_cover := some 12,
    assets := fun _ => some "https://example/band.tif" }

/-- An environment in which every external interaction succeeds. -/
def envGood : Env :=
  { items := .ok [sceneAllBands]
    fetch := fun _ => .ok ()
    clip := fun _ => .ok ()
    bands := fun _ => [5000]
    statsWrite := .ok ()
    logRead := .ok []
    logWrite := fun _ => .ok () }

/-- An environment identical to `envGood` except that the scene lacks the
near-infrared asset. -/
def envMissingNir : Env :=
  { envGood with items := .ok [sceneMissingNir] }

/-- An environment in which everything succeeds except the write of the
updated time-series log. -/
def envLogWriteFails : Env :=
  { envGood with logWrite := fun _ => .error "log write failed" }

/-- An environment whose catalog query returns zero candidate scenes. -/
def envNoScenes : Env :=
  { envGood with items := .ok [] }

/-- A plain date-range invocation event. -/
def eventRun : Event := { test_mode := false, scene_id := none }

/-! ## Shared helper lemmas -/

/-- Elementwise reading of `List.zipWith` at a position valid in both grids. -/
theorem zipWith_getElem? (f : α → β → γ) :
    ∀ (l₁ : List α) (l₂ : List β) (i : Nat) (a : α) (b : β),
      l₁[i]? = some a → l₂[i]? = some b →
      (List.zipWith f l₁ l₂)[i]? = some (f a b)
  | [], _, _, _, _, h, _ => by simp at h
  | _ :: _, [], _, _, _, _, h => by simp at h
  | x :: l₁, y :: l₂, 0, a, b, h₁, h₂ => by
    simp_all [List.zipWith]
  | x :: l₁, y :: l₂, i + 1, a, b, h₁, h₂ => by
    simpa [List.zipWith] using zipWith_getElem? f l₁ l₂ i a b (by simpa using h₁) (by simpa using h₂)

/-- Elementwise reading of `zipWith3` at a position valid in all three grids. -/
theorem zipWith3_getElem? (f : α → β → γ → δ) :
    ∀ (l₁ : List α) (l₂ : List β) (l₃ : List γ) (i : Nat) (a : α) (b : β) (c : γ),
      l₁[i]? = some a → l₂[i]? = some b → l₃[i]? = some c →
      (zipWith3 f l₁ l₂ l₃)[i]? = some (f a b c)
  | [], _, _, _, _, _, _, h, _, _ => by simp at h
  | _ :: _, [], _, _, _, _, _, _, h, _ => by simp at h
  | _ :: _, _ :: _, [], _, _, _, _, _, _, h => by simp at h
  | x :: l₁, y :: l₂, z :: l₃, 0, a, b, c, h₁, h₂, h₃ => by
    simp_all [zipWith3]
  | x :: l₁, y :: l₂, z :: l₃, i + 1, a, b, c, h₁, h₂, h₃ => by
    simpa [zipWith3] using zipWith3_getElem? f l₁ l₂ l₃ i a b c
      (by simpa using h₁) (by simpa using h₂) (by simpa using h₃)

/-! ## Claim theorems -/

/-- C3.  For every prior log state, one successful log update leaves the log
with at most 20 entries and the new entry last, the result is a suffix of the
old log with the new entry appended (entries are never re-sorted), and from a
log at capacity (20 entries) the result has exactly 20 entries with the oldest
entry dropped and the new entry at the end. -/
theorem update_log_rolling_window (prior : List LogEntry) (results : Results) :
    (update_time_series_log (.ok prior) results).length ≤ 20 ∧
    (update_time_series_log (.ok prior) results).getLast? = some (logEntryOf results) ∧
    (update_time_series_log (.ok prior) results) <:+ (prior ++ [logEntryOf results]) ∧
    (prior.length = 20 →
      (update_time_series_log (.ok prior) results).length = 20 ∧
      update_time_series_log (.ok prior) results = prior.tail ++ [logEntryOf results]) := by
  have key : update_time_series_log (.ok prior) results
      = (prior ++ [logEntryOf results]).drop ((prior ++ [logEntryOf results]).length - 20) := rfl
  rw [key]
  simp only [List.length_append, List.length_singleton]
  refine ⟨?_, ?_, ?_, ?_⟩
  · simp only [List.length_drop, List.length_append, List.length_singleton]
    omega
  · rw [List.drop_append_of_le_length (by omega)]
    exact List.getLast?_concat _
  · exact List.drop_suffix _ _
  · intro h
    rw [List.drop_append_of_le_length (by omega)]
    have h1 : prior.length + 1 - 20 = 1 := by omega
    rw [h1, List.drop_one]
    refine ⟨?_, rfl⟩
    simp only [List.length_append, List.length_tail, List.length_singleton]
    omega

/-- Witness for C3 at a concrete 20-entry log. -/
theorem update_log_rolling_window_witness :
    (update_time_series_log (.ok (List.replicate 20
        { scene_id := "old", date := "2024-01-01", ndvi_mean := 1/5,
          vegetation_health := "Poor" })) blankResults).length = 20 ∧
    update_time_series_log (.ok (List.replicate 20
        { scene_id := "old", date := "2024-01-01", ndvi_mean := 1/5,
          vegetation_health := "Poor" })) blankResults =
      (List.replicate 20
        { scene_id := "old", date := "2024-01-01", ndvi_mean := 1/5,
          vegetation_health := "Poor" : LogEntry }).tail ++ [logEntryOf blankResults] :=
  (update_log_rolling_window _ blankResults).2.2.2 (by simp)

/-- C10.  Every failure of the log read — absent log, malformed body, or
transport error, all collapsed by the source's bare handler — is treated as an
empty log, so the subsequent full rewrite stores a log containing only the
new entry and discards all previously recorded history. -/
theorem update_log_read_failure_discards_history (e : String) (results : Results) :
    update_time_series_log (.error e) results = [logEntryOf results] := rfl

/-- C9.  For unmasked scaled reflectances N and R in (0, 1] the pixel value of
NDVI, (N − R) / (N + R), is defined and lies in [-1, 1]. -/
theorem ndvi_within_unit_range (N R : Rat) (hN0 : 0 < N) (hN1 : N ≤ 1)
    (hR0 : 0 < R) (hR1 : R ≤ 1) :
    ndviPixel (some N) (some R) = some ((N - R) / (N + R)) ∧
    -1 ≤ (N - R) / (N + R) ∧ (N - R) / (N + R) ≤ 1 := by
  have hpos : 0 < N + R := by linarith
  refine ⟨by simp [ndviPixel, hpos], ?_, ?_⟩
  · rw [le_div_iff₀ hpos]
    linarith
  · rw [div_le_one hpos]
    linarith

/-- Witness for C9 at N = 1/2, R = 1/4. -/
theorem ndvi_within_unit_range_witness :
    ndviPixel (some (1/2)) (some (1/4)) = some ((1/2 - 1/4) / (1/2 + 1/4)) ∧
    -1 ≤ ((1:Rat)/2 - 1/4) / (1/2 + 1/4) ∧ ((1:Rat)/2 - 1/4) / (1/2 + 1/4) ≤ 1 :=
  ndvi_within_unit_range (1/2) (1/4) (by norm_num) (by norm_num) (by norm_num) (by norm_num)

/-- C1 (amended).  When the NDVI statistics are present in a result record,
the derived health label is "Good" exactly when the mean NDVI is *strictly*
greater than 0.3, and "Poor" otherwise; in particular a mean of exactly 0.3
yields "Poor". -/
theorem health_label_strict_threshold (indices : Indices) (sid sdate : String)
    (s : IndexStats)
    (h : (generate_lightweight_outputs indices sid sdate).statistics.NDVI = some s) :
    (generate_lightweight_outputs indices sid sdate).summary.vegetation_health =
      (if 3 / 10 < s.mean then "Good" else "Poor") := by
  have hs : statsOf "NDVI" indices.NDVI = some s := h
  show (if 3 / 10 < ((statsOf "NDVI" indices.NDVI).map IndexStats.mean).getD 0
      then "Good" else "Poor") = _
  rw [hs]
  rfl

/-- Witness for C1's amended theorem at a one-pixel raster of mean 1/2. -/
theorem health_label_strict_threshold_witness :
    (generate_lightweight_outputs
        { NDVI := [some (1/2)], EVI := [], NDWI := [] } "w" "2024-07-15").summary.vegetation_health =
      (if 3 / 10 <
          ({ mean := 1/2, var := 0, min := 1/2, max := 1/2, count := 1,
             vegetation_pixels := some 1 : IndexStats }).mean
        then "Good" else "Poor") :=
  health_label_strict_threshold { NDVI := [some (1/2)], EVI := [], NDWI := [] }
    "w" "2024-07-15"
    { mean := 1/2, var := 0, min := 1/2, max := 1/2, count := 1,
      vegetation_pixels := some 1 }
    (by norm_num [generate_lightweight_outputs, statsOf, statsFromValid, validData,
      listMin, listMax, List.filterMap_cons])

/-- Counterexample to C1 as stated: a raster whose NDVI mean is exactly 0.3
(raw nir 1300, raw red 700) is labelled "Poor", not "Good" — the source
compares with strict `>`. -/
theorem health_label_at_threshold_counterexample :
    ((generate_lightweight_outputs
        (calculate_vegetation_indices [700] [1300] [500] [500])
        "scene-ce" "2024-07-15").statistics.NDVI.map IndexStats.mean = some (3/10)) ∧
    (generate_lightweight_outputs
        (calculate_vegetation_indices [700] [1300] [500] [500])
        "scene-ce" "2024-07-15").summary.vegetation_health = "Poor" := by
  norm_num [generate_lightweight_outputs, calculate_vegetation_indices, statsOf,
    statsFromValid, validData, scalePixel, ndviPixel, eviPixel, ndwiPixel, zipWith3,
    listMin, listMax, List.filterMap_cons]

/-- C5 (amended).  For every index raster in which all pixels are masked —
NDVI, EVI or NDWI alike — the corresponding per-index statistics entry in the
result record is omitted entirely (not zero-filled); however for the NDVI
raster the absence propagates to the summary and to the time-series entry as
*numeric defaults* — health label "Poor" via the default mean 0, coverage
percentage 0, and log `ndvi_mean` 0 — not as an "insufficient data" marker. -/
theorem all_masked_statistics_defaults (indices : Indices) (sid sdate : String) :
    (validData indices.NDVI = [] →
      (generate_lightweight_outputs indices sid sdate).statistics.NDVI = none ∧
      (generate_lightweight_outputs indices sid sdate).summary.vegetation_health = "Poor" ∧
      (generate_lightweight_outputs indices sid sdate).summary.vegetation_coverage = 0 ∧
      (logEntryOf (generate_lightweight_outputs indices sid sdate)).ndvi_mean = 0) ∧
    (validData indices.EVI = [] →
      (generate_lightweight_outputs indices sid sdate).statistics.EVI = none) ∧
    (validData indices.NDWI = [] →
      (generate_lightweight_outputs indices sid sdate).statistics.NDWI = none) := by
  refine ⟨?_, ?_, ?_⟩
  · intro h
    have hs : statsOf "NDVI" indices.NDVI = none := by
      rw [statsOf, h]
      rfl
    refine ⟨hs, ?_, ?_, ?_⟩
    · show (if 3 / 10 < ((statsOf "NDVI" indices.NDVI).map IndexStats.mean).getD 0
          then "Good" else "Poor") = _
      rw [hs]
      norm_num
    · show ((((statsOf "NDVI" indices.NDVI).bind IndexStats.vegetation_pixels).getD 0 : Rat) /
          ((((statsOf "NDVI" indices.NDVI).map IndexStats.count).getD 1 : Nat) : Rat)) * 100 = 0
      rw [hs]
      norm_num
    · show (((statsOf "NDVI" indices.NDVI).map IndexStats.mean).getD 0 : Rat) = 0
      rw [hs]
      simp
  · intro h
    show statsOf "EVI" indices.EVI = none
    rw [statsOf, h]
    rfl
  · intro h
    show statsOf "NDWI" indices.NDWI = none
    rw [statsOf, h]
    rfl

/-- Witness for C5's amended theorem at all-masked one-pixel rasters (raw
digital number 0 in every band masks every pixel of all three indices). -/
theorem all_masked_statistics_defaults_witness :
    ((generate_lightweight_outputs (calculate_vegetation_indices [0] [0] [0] [0])
        "scene" "2024-07-15").statistics.NDVI = none ∧
      (generate_lightweight_outputs (calculate_vegetation_indices [0] [0] [0] [0])
        "scene" "2024-07-15").summary.vegetation_health = "Poor" ∧
      (generate_lightweight_outputs (calculate_vegetation_indices [0] [0] [0] [0])
        "scene" "2024-07-15").summary.vegetation_coverage = 0 ∧
      (logEntryOf (generate_lightweight_outputs (calculate_vegetation_indices [0] [0] [0] [0])
        "scene" "2024-07-15")).ndvi_mean = 0) ∧
    (generate_lightweight_outputs (calculate_vegetation_indices [0] [0] [0] [0])
        "scene" "2024-07-15").statistics.EVI = none ∧
    (generate_lightweight_outputs (calculate_vegetation_indices [0] [0] [0] [0])
        "scene" "2024-07-15").statistics.NDWI = none :=
  ⟨(all_masked_statistics_defaults (calculate_vegetation_indices [0] [0] [0] [0])
      "scene" "2024-07-15").1
      (by norm_num [calculate_vegetation_indices, validData, scalePixel, ndviPixel,
        List.filterMap_cons]),
    (all_masked_statistics_defaults (calculate_vegetation_indices [0] [0] [0] [0])
      "scene" "2024-07-15").2.1
      (by norm_num [calculate_vegetation_indices, validData, scalePixel, eviPixel,
        zipWith3, List.filterMap_cons]),
    (all_masked_statistics_defaults (calculate_vegetation_indices [0] [0] [0] [0])
      "scene" "2024-07-15").2.2
      (by norm_num [calculate_vegetation_indices, validData, scalePixel, ndwiPixel,
        List.filterMap_cons])⟩

/-- Counterexample to C5 as stated: at an all-masked input the NDVI statistics
are indeed omitted, but the result record's summary and the appended log entry
carry numeric defaults (label "Poor", coverage 0, log mean 0) — there is no
"insufficient data" propagation. -/
theorem insufficient_data_counterexample :
    blankResults.statistics.NDVI = none ∧
    blankResults.summary.vegetation_health = "Poor" ∧
    blankResults.summary.vegetation_coverage = 0 ∧
    update_time_series_log (.ok []) blankResults =
      [{ scene_id := "scene", date := "2024-07-15", ndvi_mean := 0,
         vegetation_health := "Poor" }] := by
  norm_num [blankResults, generate_lightweight_outputs, calculate_vegetation_indices,
    statsOf, statsFromValid, validData, scalePixel, ndviPixel, eviPixel, ndwiPixel,
    zipWith3, update_time_series_log, lastTwenty, logEntryOf, List.filterMap_cons]

/-- C4.  Masked pixels propagate: a masked operand pixel masks the derived
index pixel (for each of NDVI, EVI, NDWI both at the single-pixel level and at
any valid position of the index rasters built by
`calculate_vegetation_indices`), a band value whose scaled reflectance lies
outside (0, 1] is masked by scaling, and the downstream statistics depend only
on the unmasked pixels, so masked pixels never contribute as numbers. -/
theorem masked_pixels_propagate :
    (∀ n r : Option Rat, n = none ∨ r = none → ndviPixel n r = none) ∧
    (∀ n r b : Option Rat, n = none ∨ r = none ∨ b = none → eviPixel n r b = none) ∧
    (∀ g n : Option Rat, g = none ∨ n = none → ndwiPixel g n = none) ∧
    (∀ v : Int, ((v : Rat) / 10000 ≤ 0 ∨ 1 < (v : Rat) / 10000) → scalePixel v = none) ∧
    (∀ red nir green blue : List Int, ∀ i : Nat,
      i < red.length → i < nir.length → i < green.length → i < blue.length →
      ((((nir.map scalePixel)[i]? = some none ∨ (red.map scalePixel)[i]? = some none) →
          (calculate_vegetation_indices red nir green blue).NDVI[i]? = some none) ∧
       (((nir.map scalePixel)[i]? = some none ∨ (red.map scalePixel)[i]? = some none ∨
            (blue.map scalePixel)[i]? = some none) →
          (calculate_vegetation_indices red nir green blue).EVI[i]? = some none) ∧
       (((green.map scalePixel)[i]? = some none ∨ (nir.map scalePixel)[i]? = some none) →
          (calculate_vegetation_indices red nir green blue).NDWI[i]? = some none))) ∧
    (∀ name : String, ∀ d₁ d₂ : List (Option Rat),
      validData d₁ = validData d₂ → statsOf name d₁ = statsOf name d₂) := by
  have hndvi : ∀ n r : Option Rat, n = none ∨ r = none → ndviPixel n r = none := by
    rintro n r (rfl | rfl)
    · cases r <;> rfl
    · cases n <;> rfl
  have hevi : ∀ n r b : Option Rat, n = none ∨ r = none ∨ b = none →
      eviPixel n r b = none := by
    rintro n r b (rfl | rfl | rfl)
    · cases r <;> cases b <;> rfl
    · cases n <;> cases b <;> rfl
    · cases n <;> cases r <;> rfl
  have hndwi : ∀ g n : Option Rat, g = none ∨ n = none → ndwiPixel g n = none := by
    rintro g n (rfl | rfl)
    · cases n <;> rfl
    · cases g <;> rfl
  refine ⟨hndvi, hevi, hndwi, ?_, ?_, ?_⟩
  · intro v h
    simp [scalePixel, h]
  · intro red nir green blue i hr hn hg hb
    have hrn : i < (red.map scalePixel).length := by simpa using hr
    have hnn : i < (nir.map scalePixel).length := by simpa using hn
    have hgn : i < (green.map scalePixel).length := by simpa using hg
    have hbn : i < (blue.map scalePixel).length := by simpa using hb
    obtain ⟨rv, hrv⟩ : ∃ a, (red.map scalePixel)[i]? = some a :=
      ⟨_, List.getElem?_eq_getElem hrn⟩
    obtain ⟨nv, hnv⟩ : ∃ a, (nir.map scalePixel)[i]? = some a :=
      ⟨_, List.getElem?_eq_getElem hnn⟩
    obtain ⟨gv, hgv⟩ : ∃ a, (green.map scalePixel)[i]? = some a :=
      ⟨_, List.getElem?_eq_getElem hgn⟩
    obtain ⟨bv, hbv⟩ : ∃ a, (blue.map scalePixel)[i]? = some a :=
      ⟨_, List.getElem?_eq_getElem hbn⟩
    refine ⟨?_, ?_, ?_⟩
    · intro h
      have key : (calculate_vegetation_indices red nir green blue).NDVI[i]? =
          some (ndviPixel nv rv) :=
        zipWith_getElem? ndviPixel _ _ i nv rv hnv hrv
      rw [key]
      rcases h with h | h
      · rw [hnv] at h
        exact congrArg some (hndvi _ _ (Or.inl (Option.some_injective _ h)))
      · rw [hrv] at h
        exact congrArg some (hndvi _ _ (Or.inr (Option.some_injective _ h)))
    · intro h
      have key : (calculate_vegetation_indices red nir green blue).EVI[i]? =
          some (eviPixel nv rv bv) :=
        zipWith3_getElem? eviPixel _ _ _ i nv rv bv hnv hrv hbv
      rw [key]
      rcases h with h | h | h
      · rw [hnv] at h
        exact congrArg some (hevi _ _ _ (Or.inl (Option.some_injective _ h)))
      · rw [hrv] at h
        exact congrArg some (hevi _ _ _ (Or.inr (Or.inl (Option.some_injective _ h))))
      · rw [hbv] at h
        exact congrArg some (hevi _ _ _ (Or.inr (Or.inr (Option.some_injective _ h))))
    · intro h
      have key : (calculate_vegetation_indices red nir green blue).NDWI[i]? =
          some (ndwiPixel gv nv) :=
        zipWith_getElem? ndwiPixel _ _ i gv nv hgv hnv
      rw [key]
      rcases h with h | h
      · rw [hgv] at h
        exact congrArg some (hndwi _ _ (Or.inl (Option.some_injective _ h)))
      · rw [hnv] at h
        exact congrArg some (hndwi _ _ (Or.inr (Option.some_injective _ h)))
  · intro name d₁ d₂ h
    rw [statsOf, statsOf, h]

/-- Witness for C4 at a raster whose nir pixel is masked (raw value 0),
and a statistics pair with the masked pixel in different positions. -/
theorem masked_pixels_propagate_witness :
    (calculate_vegetation_indices [5000] [0] [5000] [5000]).NDVI[0]? = some none ∧
    statsOf "NDVI" [some (1/2), none] = statsOf "NDVI" [none, some (1/2)] := by
  constructor
  · exact (masked_pixels_propagate.2.2.2.2.1 [5000] [0] [5000] [5000] 0
      (by norm_num) (by norm_num) (by norm_num) (by norm_num)).1
      (Or.inl (by norm_num [scalePixel]))
  · exact masked_pixels_propagate.2.2.2.2.2 "NDVI" _ _
      (by norm_num [validData, List.filterMap_cons])

/-- Helper for C8: Python's `min` with a key returns an element of the list,
of minimal key, and strictly earlier elements have strictly greater key
(the first minimum encountered wins a tie). -/
theorem selectBest_spec (x : SceneItem) (xs : List SceneItem) :
    (selectBest x xs ∈ x :: xs) ∧
    (∀ s ∈ x :: xs,
      (selectBest x xs).cloud_cover.getD 100 ≤ s.cloud_cover.getD 100) ∧
    (∃ pre post, x :: xs = pre ++ selectBest x xs :: post ∧
      ∀ s ∈ pre,
        (selectBest x xs).cloud_cover.getD 100 < s.cloud_cover.getD 100) := by
  induction xs generalizing x with
  | nil =>
    refine ⟨by simp [selectBest], ?_, [], [], by simp [selectBest], by simp⟩
    intro s hs
    rw [List.mem_singleton.mp hs]
    simp [selectBest]
  | cons y ys ih =>
    by_cases hxy : y.cloud_cover.getD 100 < x.cloud_cover.getD 100
    · have hsel : selectBest x (y :: ys) = selectBest y ys := by
        simp [selectBest, hxy]
      obtain ⟨ihm, ihmin, pre', post', hdecomp, hpre⟩ := ih y
      rw [hsel]
      have hley : (selectBest y ys).cloud_cover.getD 100 ≤ y.cloud_cover.getD 100 :=
        ihmin y (by simp)
      refine ⟨List.mem_cons_of_mem x ihm, ?_, x :: pre', post', ?_, ?_⟩
      · intro s hs
        rcases List.mem_cons.mp hs with rfl | hs'
        · exact le_of_lt (lt_of_le_of_lt hley hxy)
        · exact ihmin s hs'
      · rw [List.cons_append, ← hdecomp]
      · intro s hs
        rcases List.mem_cons.mp hs with rfl | hs'
        · exact lt_of_le_of_lt hley hxy
        · exact hpre s hs'
    · have hsel : selectBest x (y :: ys) = selectBest x ys := by
        simp [selectBest, hxy]
      obtain ⟨ihm, ihmin, pre', post', hdecomp, hpre⟩ := ih x
      rw [hsel]
      have hxle : x.cloud_cover.getD 100 ≤ y.cloud_cover.getD 100 := le_of_not_lt hxy
      have hlex : (selectBest x ys).cloud_cover.getD 100 ≤ x.cloud_cover.getD 100 :=
        ihmin x (by simp)
      have hmem : selectBest x ys ∈ x :: y :: ys := by
        rcases List.mem_cons.mp ihm with h | h
        · rw [h]; exact List.mem_cons_self _ _
        · exact List.mem_cons_of_mem x (List.mem_cons_of_mem y h)
      refine ⟨hmem, ?_, ?_⟩
      · intro s hs
        rcases List.mem_cons.mp hs with rfl | hs'
        · exact ihmin s (by simp)
        · rcases List.mem_cons.mp hs' with rfl | hs''
          · exact le_trans hlex hxle
          · exact ihmin s (List.mem_cons_of_mem x hs'')
      · cases pre' with
        | nil =>
          have hinj := List.cons.inj (by simpa using hdecomp)
          refine ⟨[], y :: ys, ?_, by simp⟩
          simp [← hinj.1]
        | cons z pre'' =>
          have hinj := List.cons.inj (by simpa using hdecomp)
          refine ⟨x :: y :: pre'', post', ?_, ?_⟩
          · simp only [List.cons_append]
            rw [← hinj.2]
          · intro s hs
            have hzx : (selectBest x ys).cloud_cover.getD 100 <
                z.cloud_cover.getD 100 := hpre z (by simp)
            have hzx' : (selectBest x ys).cloud_cover.getD 100 <
                x.cloud_cover.getD 100 := by
              nth_rewrite 2 [hinj.1]
              exact hzx
            rcases List.mem_cons.mp hs with heq | hs'
            · rw [heq]; exact hzx'
            · rcases List.mem_cons.mp hs' with heq | hs''
              · rw [heq]; exact lt_of_lt_of_le hzx' hxle
              · exact hpre s (List.mem_cons_of_mem z hs'')

/-- C8.  For every non-empty candidate list, the pipeline selects the
descriptor with the numerically smallest cloud-cover key
(`properties.get('eo:cloud_cover', 100)`), ties broken by catalog return
order (the first minimal element), and `find_and_process_scene` processes
exactly that descriptor. -/
theorem scene_selection_min_cloud (x : SceneItem) (xs : List SceneItem) :
    (selectBest x xs ∈ x :: xs) ∧
    (∀ s ∈ x :: xs,
      (selectBest x xs).cloud_cover.getD 100 ≤ s.cloud_cover.getD 100) ∧
    (∃ pre post, x :: xs = pre ++ selectBest x xs :: post ∧
      ∀ s ∈ pre,
        (selectBest x xs).cloud_cover.getD 100 < s.cloud_cover.getD 100) ∧
    (∀ env : Env, env.items = .ok (x :: xs) →
      find_and_process_scene env =
        ((process_scene_data (selectBest x xs) env).1,
          .searchCall :: (process_scene_data (selectBest x xs) env).2)) := by
  obtain ⟨h1, h2, h3⟩ := selectBest_spec x xs
  refine ⟨h1, h2, h3, ?_⟩
  intro env h
  simp [find_and_process_scene, h]

/-- Witness for C8: with candidates of 5% and 12% cloud cover (in that order)
the 5% scene is selected. -/
theorem scene_selection_min_cloud_witness :
    (selectBest sc5 [sc12]).cloud_cover.getD 100 ≤ sc12.cloud_cover.getD 100 ∧
    selectBest sc5 [sc12] = sc5 := by
  constructor
  · exact (scene_selection_min_cloud sc5 [sc12]).2.1 sc12 (by simp)
  · show (if sc12.cloud_cover.getD 100 < sc5.cloud_cover.getD 100 then sc12 else sc5) = sc5
    norm_num [sc5, sc12]

/-- Helper: when every attempted transfer succeeds, the download loop returns
exactly the required bands present in the asset map, each in its own scratch
file, acquiring them in order. -/
theorem download_go_all_ok (scene : SceneItem) (env : Env) :
    ∀ bs : List Band,
      (∀ b ∈ bs, (scene.assets b).isSome → env.fetch b = .ok ()) →
      download_go scene env bs =
        (.ok ((bs.filter (fun b => (scene.assets b).isSome)).map
            (fun b => (b, bandFileName b))),
          (bs.filter (fun b => (scene.assets b).isSome)).map Effect.acquireBand) := by
  intro bs
  induction bs with
  | nil => intro _; rfl
  | cons b rest ih =>
    intro h
    have hrest := ih (fun b' hb' hs => h b' (List.mem_cons_of_mem b hb') hs)
    cases hab : scene.assets b with
    | none =>
      simp [download_go, hab, List.filter_cons, hrest]
    | some u =>
      have hf : env.fetch b = .ok () := h b (List.mem_cons_self b rest) (by simp [hab])
      simp [download_go, hab, hf, List.filter_cons, hrest, Except.map]

/-- Helper: a successful download implies every attempted transfer succeeded
— there is no way to continue past a failed transfer. -/
theorem download_go_ok_fetch (scene : SceneItem) (env : Env) :
    ∀ (bs : List Band) (l : List (Band × String)),
      (download_go scene env bs).1 = .ok l →
      ∀ b ∈ bs, (scene.assets b).isSome → env.fetch b = .ok () := by
  intro bs
  induction bs with
  | nil => intro l _ b hb; exact absurd hb (List.not_mem_nil b)
  | cons b rest ih =>
    intro l hok b' hb' hs
    rcases List.mem_cons.mp hb' with heq | hmem
    · subst heq
      cases hab : scene.assets b' with
      | none => rw [hab] at hs; exact absurd hs (by simp)
      | some u =>
        cases hf : env.fetch b' with
        | error e =>
          rw [show (download_go scene env (b' :: rest)).1 = .error e by
            simp [download_go, hab, hf]] at hok
          exact absurd hok (by simp)
        | ok v => cases v; rfl
    · cases hab : scene.assets b with
      | none =>
        rw [show download_go scene env (b :: rest) = download_go scene env rest by
          simp [download_go, hab]] at hok
        exact ih l hok b' hmem hs
      | some u =>
        cases hf : env.fetch b with
        | error e =>
          rw [show (download_go scene env (b :: rest)).1 = .error e by
            simp [download_go, hab, hf]] at hok
          exact absurd hok (by simp)
        | ok v =>
          cases v
          have hfst : (download_go scene env (b :: rest)).1 =
              (download_go scene env rest).1.map
                (fun ds => (b, bandFileName b) :: ds) := by
            simp [download_go, hab, hf]
          rw [hfst] at hok
          cases hrest : (download_go scene env rest).1 with
          | error e => rw [hrest] at hok; exact absurd hok (by simp [Except.map])
          | ok l' => exact ih l' hrest b' hmem hs

/-- Helper: the download loop emits only acquisition effects. -/
theorem download_go_trace_acquire (scene : SceneItem) (env : Env) :
    ∀ bs : List Band, ∀ eff ∈ (download_go scene env bs).2, ∃ b, eff = .acquireBand b := by
  intro bs
  induction bs with
  | nil => intro eff heff; exact absurd heff (List.not_mem_nil eff)
  | cons b rest ih =>
    intro eff heff
    cases hab : scene.assets b with
    | none =>
      rw [show download_go scene env (b :: rest) = download_go scene env rest by
        simp [download_go, hab]] at heff
      exact ih eff heff
    | some u =>
      cases hf : env.fetch b with
      | error e =>
        rw [show (download_go scene env (b :: rest)).2 = [.acquireBand b] by
          simp [download_go, hab, hf]] at heff
        exact ⟨b, List.mem_singleton.mp heff⟩
      | ok v =>
        cases v
        rw [show (download_go scene env (b :: rest)).2 =
            .acquireBand b :: (download_go scene env rest).2 by
          simp [download_go, hab, hf]] at heff
        rcases List.mem_cons.mp heff with heq | hmem
        · exact ⟨b, heq⟩
        · exact ih eff hmem

/-- C6 (amended).  Band acquisition streams each of the four required bands
*that is present in the scene's asset map* into its own scratch file, so a
successful acquisition yields exactly the present subset (possibly fewer than
four — absent bands are silently skipped); any transfer failure on an
attempted band is fatal: a successful return proves every attempted transfer
succeeded, and a failed download aborts the invocation with no clipping and
no persistence call. -/
theorem band_acquisition_contract :
    (∀ (scene : SceneItem) (env : Env),
      (∀ b ∈ required_bands, (scene.assets b).isSome → env.fetch b = .ok ()) →
      download_bands_to_tmp scene env =
        (.ok ((required_bands.filter (fun b => (scene.assets b).isSome)).map
            (fun b => (b, bandFileName b))),
          (required_bands.filter (fun b => (scene.assets b).isSome)).map
            Effect.acquireBand)) ∧
    (∀ (scene : SceneItem) (env : Env) (l : List (Band × String)),
      (download_bands_to_tmp scene env).1 = .ok l →
      ∀ b ∈ required_bands, (scene.assets b).isSome → env.fetch b = .ok ()) ∧
    (∀ (scene : SceneItem) (env : Env) (e : String),
      (download_bands_to_tmp scene env).1 = .error e →
      (process_scene_data scene env).1 = .error e ∧
      (∀ b, Effect.clipBand b ∉ (process_scene_data scene env).2) ∧
      Effect.statsWrite ∉ (process_scene_data scene env).2 ∧
      Effect.logRead ∉ (process_scene_data scene env).2 ∧
      Effect.logWrite ∉ (process_scene_data scene env).2) := by
  refine ⟨?_, ?_, ?_⟩
  · intro scene env h
    exact download_go_all_ok scene env required_bands h
  · intro scene env l h
    exact download_go_ok_fetch scene env required_bands l h
  · intro scene env e h
    have hps : process_scene_data scene env =
        (.error e, (download_bands_to_tmp scene env).2) := by
      simp [process_scene_data, h]
    rw [hps]
    have honly := download_go_trace_acquire scene env required_bands
    refine ⟨rfl, ?_, ?_, ?_, ?_⟩
    · intro b hmem
      obtain ⟨b', hb'⟩ := honly _ hmem
      exact absurd hb' (by simp)
    · intro hmem
      obtain ⟨b', hb'⟩ := honly _ hmem
      exact absurd hb' (by simp)
    · intro hmem
      obtain ⟨b', hb'⟩ := honly _ hmem
      exact absurd hb' (by simp)
    · intro hmem
      obtain ⟨b', hb'⟩ := honly _ hmem
      exact absurd hb' (by simp)

/-- Witness for C6's amended theorem: a scene with all four assets and
all-successful transfers downloads all four bands in order. -/
theorem band_acquisition_contract_witness :
    download_bands_to_tmp sceneAllBands envGood =
      (.ok ((required_bands.filter
          (fun b => (sceneAllBands.assets b).isSome)).map
            (fun b => (b, bandFileName b))),
        (required_bands.filter (fun b => (sceneAllBands.assets b).isSome)).map
          Effect.acquireBand) :=
  band_acquisition_contract.1 sceneAllBands envGood
    (fun b _ _ => rfl)

/-- Counterexample to C6 as stated: for a scene whose asset map lacks the
near-infrared band, acquisition *succeeds* with only three bands (not
exactly four), and the pipeline continues into clipping with that partial
set, failing only later at index computation with a `KeyError`. -/
theorem band_acquisition_partial_counterexample :
    (download_bands_to_tmp sceneMissingNir envGood).1 =
      .ok [(.red, "red.tif"), (.green, "green.tif"), (.blue, "blue.tif")] ∧
    Effect.clipBand .red ∈ (process_scene_data sceneMissingNir envGood).2 ∧
    (process_scene_data sceneMissingNir envGood).1 = .error "KeyError" := by
  refine ⟨?_, ?_, ?_⟩ <;>
    simp [download_bands_to_tmp, download_go, process_scene_data, clip_go, calcStep,
      lookupBand, sceneMissingNir, envGood, required_bands, bandFileName,
      upload_results_to_s3, Except.map, List.find?]

/-- C7.  When the catalog returns zero candidate scenes, the invocation fails
with the fatal "No suitable scenes found" outcome, returned as the 500 error
payload, and the only external call performed is the search itself — no band
acquisition, no clipping, and no persistence call. -/
theorem no_scenes_found_aborts (event : Event) (env : Env)
    (h1 : event.test_mode = false) (h2 : event.scene_id = none)
    (h3 : env.items = .ok []) :
    (lambda_handler event env).1 =
      { statusCode := 500, body := .failure "No suitable scenes found" } ∧
    (lambda_handler event env).2 = [.searchCall] ∧
    (∀ b, Effect.acquireBand b ∉ (lambda_handler event env).2 ∧
          Effect.clipBand b ∉ (lambda_handler event env).2) ∧
    Effect.statsWrite ∉ (lambda_handler event env).2 ∧
    Effect.logRead ∉ (lambda_handler event env).2 ∧
    Effect.logWrite ∉ (lambda_handler event env).2 := by
  have key : lambda_handler event env =
      ({ statusCode := 500, body := .failure "No suitable scenes found" },
        [.searchCall]) := by
    simp [lambda_handler, h1, h2, find_and_process_scene, h3]
  rw [key]
  simp

/-- Witness for C7 at the concrete empty-catalog environment. -/
theorem no_scenes_found_aborts_witness :
    (lambda_handler eventRun envNoScenes).1 =
      { statusCode := 500, body := .failure "No suitable scenes found" } ∧
    (lambda_handler eventRun envNoScenes).2 = [.searchCall] :=
  ⟨(no_scenes_found_aborts eventRun envNoScenes rfl rfl rfl).1,
    (no_scenes_found_aborts eventRun envNoScenes rfl rfl rfl).2.1⟩

/-- Helper for C2: when every per-band clip succeeds, the clipping loop
clips each downloaded band in order. -/
theorem clip_go_all_ok (env : Env) (h : ∀ b, env.clip b = .ok ()) :
    ∀ l : List (Band × String),
      clip_go env l = (.ok (l.map (fun p => (p.1, clippedFileName p.1))),
        l.map (fun p => Effect.clipBand p.1)) := by
  intro l
  induction l with
  | nil => rfl
  | cons p rest ih =>
    obtain ⟨b, path⟩ := p
    simp [clip_go, h b, ih, Except.map]

/-- C2 (amended).  In an invocation where search, acquisition, clipping,
index computation and the statistics write all succeed, a failure *reading*
the existing time-series log is caught (the log read outcome `env.logRead`
is arbitrary here, including any error) and the pipeline still returns the
200 success payload when the log write succeeds; but a failure *writing* the
updated log is not caught — it propagates and the pipeline returns the 500
error payload instead of the success payload. -/
theorem log_update_failure_handling (event : Event) (env : Env) (scene : SceneItem)
    (h1 : event.test_mode = false) (h2 : event.scene_id = none)
    (h3 : env.items = .ok [scene])
    (h4 : ∀ b, (scene.assets b).isSome)
    (h5 : ∀ b, env.fetch b = .ok ())
    (h6 : ∀ b, env.clip b = .ok ())
    (h7 : env.statsWrite = .ok ()) :
    ((∀ l, env.logWrite l = .ok ()) →
      (lambda_handler event env).1.statusCode = 200) ∧
    (∀ e : String, (∀ l, env.logWrite l = .error e) →
      (lambda_handler event env).1 = { statusCode := 500, body := .failure e }) := by
  have hdl : download_bands_to_tmp scene env =
      (.ok [(.red, "red.tif"), (.green, "green.tif"), (.blue, "blue.tif"),
        (.nir, "nir.tif")],
        [.acquireBand .red, .acquireBand .green, .acquireBand .blue,
          .acquireBand .nir]) := by
    have key := download_go_all_ok scene env required_bands (fun b _ _ => h5 b)
    rw [List.filter_eq_self.mpr (fun b _ => h4 b)] at key
    simpa [download_bands_to_tmp, required_bands, bandFileName] using key
  have hcl := clip_go_all_ok env h6
    [(.red, "red.tif"), (.green, "green.tif"), (.blue, "blue.tif"), (.nir, "nir.tif")]
  constructor
  · intro hw
    simp [lambda_handler, h1, h2, find_and_process_scene, h3, selectBest,
      process_scene_data, hdl, hcl, calcStep, lookupBand, List.find?,
      upload_results_to_s3, h7, hw, clippedFileName]
  · intro e hw
    simp [lambda_handler, h1, h2, find_and_process_scene, h3, selectBest,
      process_scene_data, hdl, hcl, calcStep, lookupBand, List.find?,
      upload_results_to_s3, h7, hw, clippedFileName]

/-- Witness for C2's amended theorem: in the all-success environment the
handler returns status 200. -/
theorem log_update_failure_handling_witness :
    (lambda_handler eventRun envGood).1.statusCode = 200 :=
  (log_update_failure_handling eventRun envGood sceneAllBands rfl rfl rfl
    (fun _ => rfl) (fun _ => rfl) (fun _ => rfl) rfl).1 (fun _ => rfl)

/-- Counterexample to C2 as stated: with every stage succeeding except the
time-series log write, the handler returns the 500 error payload, not the
200 success payload — the log-update write failure is not caught. -/
theorem log_write_failure_counterexample :
    (lambda_handler eventRun envLogWriteFails).1 =
      { statusCode := 500, body := .failure "log write failed" } := by
  simp [lambda_handler, eventRun, envLogWriteFails, envGood, find_and_process_scene,
    process_scene_data, download_bands_to_tmp, download_go, sceneAllBands, clip_go,
    calcStep, lookupBand, upload_results_to_s3, selectBest, Except.map, List.find?,
    required_bands, bandFileName, clippedFileName]

end CropMonitoring
